import Mathlib

/-!
Verification development for the PDF conversion routes of this repository
(src/app/api/convert/route.ts).  The file shallowly embeds:

* the PPTX route: `extractTextFromPDF` (throws on parser failure) and
  `createPptxFromText` (paragraph splitting and greedy slide layout);
* the DOCX route: its `extractTextFromPDF` variant (returns a fixed
  placeholder string on parser failure) and the tail of its `POST` handler
  (empty-text check, line-based paragraph construction);
* the table detector, which the specification describes but which has no
  implementation anywhere in the repository sources; it is modelled here
  directly from the specification text.

Modelling conventions:

* The outcome of the external pdf-parse call is taken as an input value
  (`PdfParseOutcome`), since the parser is an external collaborator specified
  only at its interface boundary.  A thrown JavaScript exception is modelled
  as `Except.error`.
* JavaScript `String.prototype.split` and `trim` are embedded as structural
  character-list recursions (`splitCharAux`, `splitNlNlAux`, `trimChars`) so
  that every definition evaluates by kernel reduction on concrete inputs.
* All slide geometry is measured in tenths of an inch, so that every constant
  of the source is an exactly representable natural number: the source's
  x 0.5 becomes 5, width 11 becomes 110, `lineHeight` 0.5 becomes 5, the
  initial cursor 0.5 becomes 5, and the overflow bound 7 becomes 70.
-/

namespace ConvertRoute

/-- Outcome of the external pdf-parse call: either a parsed result carrying
`data.text` and `data.numpages`, or a thrown error with its message. -/
inductive PdfParseOutcome where
  | success (text : String) (numpages : Nat)
  | failure (message : String)
deriving Repr, DecidableEq

/-- Embeds `extractTextFromPDF` of the PPTX route (route.ts lines 63-76):
on parser success it returns `data.text || ''`; on parser failure it rethrows
a fixed error to its caller, modelled as `Except.error`. -/
def extractTextFromPDF : PdfParseOutcome → Except String String
  | .success t _ => .ok (if t = "" then "" else t)
  | .failure _ =>
    .error "Could not extract text from PDF. The file may be corrupted or password-protected."

/-- Embeds `extractTextFromPDF` of the DOCX route (lines 244-272): on parser
success it returns `data.text || ''`; on parser failure it catches the error
and returns a fixed placeholder string instead of raising. -/
def extractTextFromPDFDocx : PdfParseOutcome → String
  | .success t _ => if t = "" then "" else t
  | .failure _ =>
    "Could not extract text from this PDF file. The file might be image-based or require OCR processing."

/-- JavaScript `trim` on a character list: drop whitespace from both ends. -/
def trimChars (cs : List Char) : List Char :=
  ((cs.dropWhile Char.isWhitespace).reverse.dropWhile Char.isWhitespace).reverse

/-- JavaScript `String.prototype.trim`. -/
def jsTrim (s : String) : String :=
  String.mk (trimChars s.toList)

/-- JavaScript `split` with a single-character separator, on character lists:
`cur` is the current segment in reversed order. -/
def splitCharAux (sep : Char) : List Char → List Char → List (List Char)
  | [], cur => [cur.reverse]
  | c :: rest, cur =>
    if c = sep then cur.reverse :: splitCharAux sep rest []
    else splitCharAux sep rest (c :: cur)

/-- JavaScript `text.split('\n')`. -/
def splitNewline (text : String) : List String :=
  (splitCharAux '\n' text.toList []).map String.mk

/-- JavaScript `split` with the two-character separator `"\n\n"`, on
character lists: non-overlapping, left to right. -/
def splitNlNlAux : List Char → List Char → List (List Char)
  | [], cur => [cur.reverse]
  | '\n' :: '\n' :: rest, cur => cur.reverse :: splitNlNlAux rest []
  | c :: rest, cur => splitNlNlAux rest (c :: cur)

/-- JavaScript `text.split('\n\n')`. -/
def splitDoubleNewline (text : String) : List String :=
  (splitNlNlAux text.toList []).map String.mk

/-- One text box added by `slide.addText` in `createPptxFromText`, with the
option fields the source passes (x, y, w, fontFace, fontSize, color, valign,
align, autoFit).  Geometry is in tenths of an inch; font size in points. -/
structure TextBlock where
  content : String
  x : Nat
  y : Nat
  w : Nat
  fontFace : String
  fontSize : Nat
  color : String
  valign : String
  align : Option String
  autoFit : Bool
deriving Repr, DecidableEq

/-- One slide of the generated presentation: the ordered text boxes placed
on it. -/
structure Slide where
  blocks : List TextBlock
deriving Repr, DecidableEq

/-- The text box `createPptxFromText` adds for one paragraph (route.ts lines
93-102): x 0.5 in (5), width 11 in (110), Arial, fontSize 18pt, black,
top-aligned, autoFit. -/
def mkBlock (para : String) (yPosition : Nat) : TextBlock :=
  { content := para, x := 5, y := yPosition, w := 110, fontFace := "Arial",
    fontSize := 18, color := "000000", valign := "top", align := none,
    autoFit := true }

/-- The fallback notice text box added when no paragraphs were produced
(route.ts lines 116-125): y 1 in (10), red, middle/center aligned. -/
def fallbackBlock : TextBlock :=
  { content := "No extractable text found in this PDF.", x := 5, y := 10,
    w := 110, fontFace := "Arial", fontSize := 18, color := "FF0000",
    valign := "middle", align := some "center", autoFit := false }

/-- Default block used only as the `List.getD` default in statements. -/
def dfltBlock : TextBlock := mkBlock "" 0

/-- Paragraph extraction of `createPptxFromText` (route.ts line 83):
`text.split('\n\n').map(p => p.trim()).filter(p => p.length > 0)`. -/
def paragraphsOf (text : String) : List String :=
  (((splitDoubleNewline text).map jsTrim).filter (fun p => 0 < p.length))

/-- The slide-building loop of `createPptxFromText` (route.ts lines 86-111):
place each paragraph at the current vertical cursor, advance the cursor by
the fixed `lineHeight` 0.5 in (5), and if the cursor now exceeds 7 in (70),
append the current slide and start a new one with the cursor reset to the
0.5 in (5) top margin.  The trailing current slide is always part of the
presentation (the source calls `pptx.addSlide()` before the loop). -/
def placeLoop : List String → List Slide → List TextBlock → Nat → List Slide
  | [], done, cur, _ => done ++ [Slide.mk cur]
  | para :: rest, done, cur, yPosition =>
    if 70 < yPosition + 5 then
      placeLoop rest (done ++ [Slide.mk (cur ++ [mkBlock para yPosition])]) [] 5
    else
      placeLoop rest done (cur ++ [mkBlock para yPosition]) (yPosition + 5)

/-- Embeds `createPptxFromText` (route.ts lines 78-129): split the text into
trimmed non-empty paragraphs, run the slide loop starting at cursor 0.5 in
(5), and if there were no paragraphs at all, additionally append the fallback
slide. -/
def createPptxFromText (text : String) : List Slide :=
  let paragraphs := paragraphsOf text
  let slides := placeLoop paragraphs [] [] 5
  if paragraphs.length = 0 then slides ++ [Slide.mk [fallbackBlock]] else slides

/-- Response of the DOCX route after text extraction: either a structured
JSON error with its HTTP status, or a generated document carrying its
paragraph texts. -/
inductive DocxResponse where
  | jsonError (status : Nat) (error : String)
  | docxDocument (paragraphs : List String)
deriving Repr, DecidableEq

/-- Embeds the tail of the DOCX route's `POST` handler (lines 170-212), from
the point where `extractTextFromPDF` has returned `extractedText`: if the
text is empty or whitespace-only, return a 500 JSON error; otherwise split
the text on single newlines, drop whitespace-only lines, trim each line into
a document paragraph, and fall back to a fixed notice paragraph if none
remain. -/
def postDocxAfterExtract (extractedText : String) : DocxResponse :=
  if extractedText = "" ∨ (jsTrim extractedText).length = 0 then
    DocxResponse.jsonError 500
      "Could not extract text from PDF. The file might be image-based or corrupted."
  else
    DocxResponse.docxDocument
      (let paragraphs :=
        (((splitNewline extractedText).filter
            (fun line => 0 < (jsTrim line).length)).map (fun line => jsTrim line))
       if 0 < paragraphs.length then paragraphs
       else ["No readable text found in the PDF file."])

/-- Modelled from the spec: the TableDetector component (spec section 4.4) has
no implementation in the repository sources; this splits one line into column
words, treating every run of two or more consecutive whitespace characters as
a column separator while single whitespace characters stay inside the word.
`cur` is the current word and `pend` the pending whitespace run, both in
reversed character order. -/
def splitColsAux : List Char → List Char → List Char → List String
  | [], cur, _ => [String.mk cur.reverse]
  | c :: rest, cur, pend =>
    if c.isWhitespace then
      splitColsAux rest cur (c :: pend)
    else
      if 2 ≤ pend.length then
        String.mk cur.reverse :: splitColsAux rest [c] []
      else
        splitColsAux rest (c :: (pend ++ cur)) []

/-- Modelled from the spec: the whitespace-run-delimited segments of a line
(spec section 4.4, wide gaps are column boundaries). -/
def splitColumns (line : String) : List String :=
  splitColsAux line.toList [] []

/-- Modelled from the spec: the cells of a line, the whitespace-run-delimited
segments that are non-empty after trimming. -/
def rowCells (line : String) : List String :=
  (splitColumns line).filter (fun w => jsTrim w ≠ "")

/-- Modelled from the spec: a line is a table-row candidate iff it splits into
at least two non-empty-after-trim words (spec section 4.4 and glossary). -/
def isTableRowCandidate (line : String) : Bool :=
  decide (2 ≤ (rowCells line).length)

/-- A detected table: its ordered rows of cell strings. -/
structure Table where
  rows : List (List String)
deriving Repr, DecidableEq

/-- Modelled from the spec: the single pass of the TableDetector (spec
section 4.4).  Candidate lines extend the current run and bump the
consecutive-candidate counter; a non-candidate line (or end of input) commits
the run as a `Table` exactly when the run has at least two rows and the
counter is at least two, then resets run and counter. -/
def detectLoop : List String → List Table → List (List String) → Nat → List Table
  | [], tables, run, counter =>
    if 2 ≤ run.length ∧ 2 ≤ counter then tables ++ [Table.mk run] else tables
  | line :: rest, tables, run, counter =>
    if isTableRowCandidate line then
      detectLoop rest tables (run ++ [rowCells line]) (counter + 1)
    else
      if 2 ≤ run.length ∧ 2 ≤ counter then
        detectLoop rest (tables ++ [Table.mk run]) [] 0
      else
        detectLoop rest tables [] 0

/-- Modelled from the spec: the TableDetector over a whole text, one pass over
its newline-separated lines. -/
def detectTables (text : String) : List Table :=
  detectLoop (splitNewline text) [] [] 0

/-! ### Helper lemmas about the slide layout loop -/

/-- The paragraph texts of a slide list, in order. -/
def slideContents (slides : List Slide) : List String :=
  (slides.map (fun s => s.blocks.map TextBlock.content)).flatten

lemma slideContents_append (l l' : List Slide) :
    slideContents (l ++ l') = slideContents l ++ slideContents l' := by
  simp [slideContents]

lemma placeLoop_contents (ps : List String) :
    ∀ (done : List Slide) (cur : List TextBlock) (y : Nat),
      slideContents (placeLoop ps done cur y) =
        slideContents done ++ cur.map TextBlock.content ++ ps := by
  induction ps with
  | nil =>
    intro done cur y
    simp [placeLoop, slideContents]
  | cons p rest ih =>
    intro done cur y
    simp only [placeLoop]
    by_cases hc : 70 < y + 5
    · rw [if_pos hc, ih]
      simp [slideContents, mkBlock]
    · rw [if_neg hc, ih]
      simp [mkBlock]

/-- Blocks placed at the 0.5 in top margin and each 0.5 in below the
previous one (positions in tenths of an inch). -/
def BlocksAligned (bs : List TextBlock) : Prop :=
  ∀ i, i < bs.length → (bs.getD i dfltBlock).y = 5 + 5 * i

/-- Invariant of every slide the loop produces: aligned blocks, at most 14 of
them, all Arial 18pt. -/
def SlideGood (s : Slide) : Prop :=
  BlocksAligned s.blocks ∧ s.blocks.length ≤ 14 ∧
    ∀ b ∈ s.blocks, b.fontFace = "Arial" ∧ b.fontSize = 18

lemma blocksAligned_nil : BlocksAligned [] := by
  intro i hi
  simp at hi

lemma blocksAligned_append (bs : List TextBlock) (p : String)
    (h : BlocksAligned bs) :
    BlocksAligned (bs ++ [mkBlock p (5 + 5 * bs.length)]) := by
  intro i hi
  simp only [List.length_append, List.length_singleton] at hi
  rcases Nat.lt_or_ge i bs.length with h1 | h1
  · rw [List.getD_append _ _ _ _ h1]
    exact h i h1
  · have h2 : i = bs.length := by omega
    subst h2
    rw [List.getD_append_right _ _ _ _ (le_refl _)]
    simp [mkBlock]

lemma fonts_append (bs : List TextBlock) (p : String) (y : Nat)
    (h : ∀ b ∈ bs, b.fontFace = "Arial" ∧ b.fontSize = 18) :
    ∀ b ∈ bs ++ [mkBlock p y], b.fontFace = "Arial" ∧ b.fontSize = 18 := by
  intro b hb
  rcases List.mem_append.mp hb with h1 | h1
  · exact h b h1
  · rcases List.mem_singleton.mp h1 with rfl
    exact ⟨rfl, rfl⟩

lemma placeLoop_good (ps : List String) :
    ∀ (done : List Slide) (cur : List TextBlock) (y : Nat),
      (∀ s ∈ done, SlideGood s) →
      BlocksAligned cur →
      (∀ b ∈ cur, b.fontFace = "Arial" ∧ b.fontSize = 18) →
      cur.length ≤ 13 →
      y = 5 + 5 * cur.length →
      ∀ s ∈ placeLoop ps done cur y, SlideGood s := by
  induction ps with
  | nil =>
    intro done cur y hdone hal hfonts hlen hy s hs
    simp only [placeLoop] at hs
    rcases List.mem_append.mp hs with h | h
    · exact hdone s h
    · rcases List.mem_singleton.mp h with rfl
      exact ⟨hal, Nat.le_trans hlen (by omega), hfonts⟩
  | cons p rest ih =>
    intro done cur y hdone hal hfonts hlen hy s hs
    subst hy
    simp only [placeLoop] at hs
    by_cases hc : 70 < 5 + 5 * cur.length + 5
    · rw [if_pos hc] at hs
      refine ih _ [] 5 ?_ blocksAligned_nil (by simp) (by simp) (by simp) s hs
      intro s' hs'
      rcases List.mem_append.mp hs' with h | h
      · exact hdone s' h
      · rcases List.mem_singleton.mp h with rfl
        refine ⟨blocksAligned_append cur p hal, ?_, fonts_append cur p _ hfonts⟩
        simp only [List.length_append, List.length_singleton]
        omega
    · rw [if_neg hc] at hs
      refine ih _ (cur ++ [mkBlock p (5 + 5 * cur.length)]) _ hdone
        (blocksAligned_append cur p hal) (fonts_append cur p _ hfonts) ?_ ?_ s hs
      · simp only [List.length_append, List.length_singleton]
        omega
      · simp only [List.length_append, List.length_singleton]
        omega

/-- Every slide of `createPptxFromText` satisfies the layout invariant when
at least one paragraph was produced. -/
lemma mem_createPptx_good (text : String)
    (h0 : ¬ (paragraphsOf text).length = 0) :
    ∀ s ∈ createPptxFromText text, SlideGood s := by
  intro s hs
  simp only [createPptxFromText] at hs
  rw [if_neg h0] at hs
  exact placeLoop_good _ [] [] 5 (by simp) blocksAligned_nil (by simp)
    (by simp) (by simp) s hs

/-- With no paragraphs at all, the presentation is the initial empty slide
followed by the fallback slide. -/
lemma createPptx_empty (text : String) (h : paragraphsOf text = []) :
    createPptxFromText text = [Slide.mk [], Slide.mk [fallbackBlock]] := by
  simp [createPptxFromText, h, placeLoop]

/-! ### Helper lemmas about the table detector -/

/-- A committed table row is well formed: at least two cells, each non-empty
after trimming. -/
def RowGood (row : List String) : Prop :=
  2 ≤ row.length ∧ ∀ cell ∈ row, jsTrim cell ≠ ""

/-- A committed table is well formed: at least two well-formed rows. -/
def TableGood (t : Table) : Prop :=
  2 ≤ t.rows.length ∧ ∀ row ∈ t.rows, RowGood row

lemma rowGood_of_candidate (line : String)
    (h : isTableRowCandidate line = true) : RowGood (rowCells line) := by
  constructor
  · simpa [isTableRowCandidate] using h
  · intro cell hc
    have h2 := (List.mem_filter.mp hc).2
    simpa using h2

lemma detectLoop_good (lines : List String) :
    ∀ (tables : List Table) (run : List (List String)) (counter : Nat),
      (∀ t ∈ tables, TableGood t) →
      (∀ row ∈ run, RowGood row) →
      ∀ t ∈ detectLoop lines tables run counter, TableGood t := by
  induction lines with
  | nil =>
    intro tables run counter htab hrun t ht
    simp only [detectLoop] at ht
    by_cases hc : 2 ≤ run.length ∧ 2 ≤ counter
    · rw [if_pos hc] at ht
      rcases List.mem_append.mp ht with h | h
      · exact htab t h
      · rcases List.mem_singleton.mp h with rfl
        exact ⟨hc.1, hrun⟩
    · rw [if_neg hc] at ht
      exact htab t ht
  | cons line rest ih =>
    intro tables run counter htab hrun t ht
    simp only [detectLoop] at ht
    by_cases hcand : isTableRowCandidate line = true
    · rw [if_pos hcand] at ht
      refine ih _ _ _ htab ?_ t ht
      intro row hrow
      rcases List.mem_append.mp hrow with h | h
      · exact hrun row h
      · rcases List.mem_singleton.mp h with rfl
        exact rowGood_of_candidate line hcand
    · rw [if_neg hcand] at ht
      by_cases hc : 2 ≤ run.length ∧ 2 ≤ counter
      · rw [if_pos hc] at ht
        refine ih _ _ _ ?_ (by simp) t ht
        intro t' ht'
        rcases List.mem_append.mp ht' with h | h
        · exact htab t' h
        · rcases List.mem_singleton.mp h with rfl
          exact ⟨hc.1, hrun⟩
      · rw [if_neg hc] at ht
        exact ih _ _ _ htab (by simp) t ht

/-! ### Claim theorems -/

/-- C1 counterexample: the claim says the extraction stage never raises to
its caller, but the PPTX route's `extractTextFromPDF` rethrows a fixed error
(modelled as `Except.error`) when the external parser fails, and that error
propagates to the `POST` handler. -/
theorem C1_counterexample :
    extractTextFromPDF (PdfParseOutcome.failure "bad xref") =
      Except.error
        "Could not extract text from PDF. The file may be corrupted or password-protected." := by
  rfl

/-- C1 amended: only one extractor (pdf-parse) is attempted; on parser
failure the PPTX route's extraction raises a fixed error to its caller,
while the DOCX route's extraction never raises and instead returns a fixed
non-empty placeholder string.  There is no structured-then-fallback chain. -/
theorem C1_amended (m : String) :
    extractTextFromPDF (PdfParseOutcome.failure m) =
      Except.error
        "Could not extract text from PDF. The file may be corrupted or password-protected." ∧
    extractTextFromPDFDocx (PdfParseOutcome.failure m) =
      "Could not extract text from this PDF file. The file might be image-based or require OCR processing." ∧
    "Could not extract text from this PDF file. The file might be image-based or require OCR processing." ≠ "" :=
  ⟨rfl, rfl, by decide⟩

/-- C2 counterexample: the claim says an input with no non-empty paragraphs
yields exactly one page, but the source adds a slide before the loop and the
fallback slide afterwards, so the empty text yields two slides. -/
theorem C2_counterexample :
    paragraphsOf "" = [] ∧ (createPptxFromText "").length = 2 ∧
      ¬ (createPptxFromText "").length = 1 := by
  decide

/-- C2 amended: for every input whose extracted text yields no non-empty
paragraphs, `createPptxFromText` emits exactly two pages: a first page with
no blocks and a second page containing exactly one fallback notice block. -/
theorem C2_two_pages_on_empty (text : String)
    (h : paragraphsOf text = []) :
    createPptxFromText text = [Slide.mk [], Slide.mk [fallbackBlock]] := by
  simp [createPptxFromText, h, placeLoop]

/-- C2 witness at the whitespace-only input `"\n\n"`. -/
theorem C2_witness :
    paragraphsOf "\n\n" = [] ∧
    createPptxFromText "\n\n" = [Slide.mk [], Slide.mk [fallbackBlock]] :=
  ⟨by decide, C2_two_pages_on_empty "\n\n" (by decide)⟩

/-- C3 confirmed: the layout never splits a paragraph across pages — the
block contents of the produced slides are exactly the paragraph list, one
whole block per paragraph; on every page each block except the last ends
within the 7 in (70) budget, so only the final block of a page may overflow;
and every page's first block sits at the 0.5 in (5) top margin, so the block
after an overflow starts a new page at the top margin. -/
theorem C3_no_paragraph_split (text : String) (h : paragraphsOf text ≠ []) :
    slideContents (createPptxFromText text) = paragraphsOf text ∧
    ∀ s ∈ createPptxFromText text,
      (∀ i, i + 1 < s.blocks.length → (s.blocks.getD i dfltBlock).y + 5 ≤ 70) ∧
      (0 < s.blocks.length → (s.blocks.getD 0 dfltBlock).y = 5) := by
  have hlen : ¬ (paragraphsOf text).length = 0 := by
    simpa [List.length_eq_zero] using h
  constructor
  · simp only [createPptxFromText]
    rw [if_neg hlen, placeLoop_contents]
    simp [slideContents]
  · intro s hs
    rcases mem_createPptx_good text hlen s hs with ⟨hal, hle, _⟩
    constructor
    · intro i hi
      rw [hal i (by omega)]
      omega
    · intro h0
      rw [hal 0 h0]

/-- C3 witness at the two-paragraph input `"A\n\nB"`. -/
theorem C3_witness :
    paragraphsOf "A\n\nB" ≠ [] ∧
    (slideContents (createPptxFromText "A\n\nB") = paragraphsOf "A\n\nB" ∧
     ∀ s ∈ createPptxFromText "A\n\nB",
       (∀ i, i + 1 < s.blocks.length →
          (s.blocks.getD i dfltBlock).y + 5 ≤ 70) ∧
       (0 < s.blocks.length → (s.blocks.getD 0 dfltBlock).y = 5)) :=
  ⟨by decide, C3_no_paragraph_split "A\n\nB" (by decide)⟩

/-- C4 counterexample: the claim says the cursor advances by
`(format.sizePt / 12) * 0.5 + 0.2` units — 0.7 in (7) under the default
12 pt hint — but in `createPptxFromText "A\n\nB"` the second block sits at
1.0 in (10), i.e. 0.5 in (5) below the first, not 0.7 in below it. -/
theorem C4_counterexample :
    createPptxFromText "A\n\nB" = [Slide.mk [mkBlock "A" 5, mkBlock "B" 10]] ∧
    ¬ ((Slide.mk [mkBlock "A" 5, mkBlock "B" 10]).blocks.getD 1 dfltBlock).y =
        ((Slide.mk [mkBlock "A" 5, mkBlock "B" 10]).blocks.getD 0 dfltBlock).y +
          ((12 / 12) * 5 + 2) := by
  decide

/-- C4 amended: after placing each paragraph the layout advances the vertical
cursor by exactly the fixed `lineHeight` of 0.5 in (5), independent of any
format hint: consecutive blocks on one slide are exactly 0.5 in apart. -/
theorem C4_fixed_half_inch_advance (text : String) :
    ∀ s ∈ createPptxFromText text, ∀ i, i + 1 < s.blocks.length →
      (s.blocks.getD (i + 1) dfltBlock).y =
        (s.blocks.getD i dfltBlock).y + 5 := by
  intro s hs i hi
  by_cases h0 : (paragraphsOf text).length = 0
  · have hps : paragraphsOf text = [] := List.length_eq_zero.mp h0
    rw [createPptx_empty text hps] at hs
    rcases List.mem_cons.mp hs with rfl | hs
    · simp at hi
    · rcases List.mem_singleton.mp hs with rfl
      simp at hi
  · rcases mem_createPptx_good text h0 s hs with ⟨hal, _, _⟩
    rw [hal i (by omega), hal (i + 1) hi]
    omega

/-- C4 witness at the two-paragraph input `"A\n\nB"`, index 0. -/
theorem C4_witness :
    Slide.mk [mkBlock "A" 5, mkBlock "B" 10] ∈ createPptxFromText "A\n\nB" ∧
    0 + 1 < (Slide.mk [mkBlock "A" 5, mkBlock "B" 10]).blocks.length ∧
    ((Slide.mk [mkBlock "A" 5, mkBlock "B" 10]).blocks.getD (0 + 1) dfltBlock).y =
      ((Slide.mk [mkBlock "A" 5, mkBlock "B" 10]).blocks.getD 0 dfltBlock).y + 5 :=
  ⟨by decide, by decide,
    C4_fixed_half_inch_advance "A\n\nB" (Slide.mk [mkBlock "A" 5, mkBlock "B" 10])
      (by decide) 0 (by decide)⟩

/-- C5 counterexample: the claim says the Scenario A input produces exactly
two pages, but `createPptxFromText` has no page-break sentinel handling at
all, so it produces a single page. -/
theorem C5_counterexample :
    ¬ ((createPptxFromText
          "Hello world\n\n--- Page Break ---\n\nSecond page text").length = 2) := by
  decide

/-- C5 amended: the layout has no page-break sentinel handling: the sentinel
paragraph is rendered as an ordinary text block, and the Scenario A input
produces exactly one page holding the three blocks "Hello world",
"--- Page Break ---" and "Second page text" in order. -/
theorem C5_sentinel_rendered :
    createPptxFromText "Hello world\n\n--- Page Break ---\n\nSecond page text" =
      [Slide.mk [mkBlock "Hello world" 5, mkBlock "--- Page Break ---" 10,
        mkBlock "Second page text" 15]] := by
  decide

/-- C6 confirmed: the paragraphs laid out by `createPptxFromText` are exactly
the segments of the text split on the double-newline separator, trimmed, with
empty (hence also whitespace-only) segments removed, in their original order,
one text block per surviving paragraph. -/
theorem C6_paragraph_extraction (text : String) (h : paragraphsOf text ≠ []) :
    slideContents (createPptxFromText text) =
      ((splitDoubleNewline text).map jsTrim).filter (fun p => 0 < p.length) := by
  have hlen : ¬ (paragraphsOf text).length = 0 := by
    simpa [List.length_eq_zero] using h
  simp only [createPptxFromText]
  rw [if_neg hlen, placeLoop_contents]
  simp [slideContents, paragraphsOf]

/-- C6 witness at `"A\n\n \n\nB"`, whose middle segment is whitespace-only
and is removed. -/
theorem C6_witness :
    paragraphsOf "A\n\n \n\nB" ≠ [] ∧
    slideContents (createPptxFromText "A\n\n \n\nB") =
      ((splitDoubleNewline "A\n\n \n\nB").map jsTrim).filter
        (fun p => 0 < p.length) :=
  ⟨by decide, C6_paragraph_extraction "A\n\n \n\nB" (by decide)⟩

/-- C7 counterexample: the claim says every laid-out text block carries the
default 12 pt format hint, but the source hard-codes `fontSize: 18`. -/
theorem C7_counterexample :
    createPptxFromText "Hi" = [Slide.mk [mkBlock "Hi" 5]] ∧
    (mkBlock "Hi" 5).fontSize = 18 ∧ ¬ (mkBlock "Hi" 5).fontSize = 12 := by
  decide

/-- C7 amended: every text block produced by `createPptxFromText` carries the
font face Arial at size 18 pt (the source hard-codes both; no finer style
information is ever produced). -/
theorem C7_arial_18 (text : String) :
    ∀ s ∈ createPptxFromText text, ∀ b ∈ s.blocks,
      b.fontFace = "Arial" ∧ b.fontSize = 18 := by
  intro s hs b hb
  by_cases h0 : (paragraphsOf text).length = 0
  · have hps : paragraphsOf text = [] := List.length_eq_zero.mp h0
    rw [createPptx_empty text hps] at hs
    rcases List.mem_cons.mp hs with rfl | hs
    · simp at hb
    · rcases List.mem_singleton.mp hs with rfl
      rcases List.mem_singleton.mp hb with rfl
      exact ⟨rfl, rfl⟩
  · exact (mem_createPptx_good text h0 s hs).2.2 b hb

/-- C7 witness at the one-paragraph input `"Hi"`. -/
theorem C7_witness :
    Slide.mk [mkBlock "Hi" 5] ∈ createPptxFromText "Hi" ∧
    mkBlock "Hi" 5 ∈ (Slide.mk [mkBlock "Hi" 5]).blocks ∧
    ((mkBlock "Hi" 5).fontFace = "Arial" ∧ (mkBlock "Hi" 5).fontSize = 18) :=
  ⟨by decide, by decide,
    C7_arial_18 "Hi" (Slide.mk [mkBlock "Hi" 5]) (by decide)
      (mkBlock "Hi" 5) (by decide)⟩

/-- C8 confirmed (modelled from the spec, no implementation exists in src/):
every committed table has at least two rows, every row at least two cells,
every cell non-empty after trimming; since a run is committed only with at
least two rows, a run of fewer than two consecutive candidate lines is never
committed. -/
theorem C8_table_invariant (text : String) :
    ∀ t ∈ detectTables text,
      2 ≤ t.rows.length ∧
        ∀ row ∈ t.rows, 2 ≤ row.length ∧ ∀ cell ∈ row, jsTrim cell ≠ "" := by
  intro t ht
  have hgood := detectLoop_good (splitNewline text) [] [] 0
    (by simp) (by simp) t ht
  exact ⟨hgood.1, fun row hr => (hgood.2 row hr)⟩

/-- C8 witness at the Scenario B text: three aligned rows followed by a prose
line; the detector commits exactly the three-row table. -/
theorem C8_witness :
    Table.mk [["Name", "Age"], ["Alice", "30"], ["Bob", "25"]] ∈
        detectTables "Name    Age\nAlice    30\nBob    25\nnormal prose line" ∧
    (2 ≤ (Table.mk [["Name", "Age"], ["Alice", "30"], ["Bob", "25"]]).rows.length ∧
      ∀ row ∈ (Table.mk [["Name", "Age"], ["Alice", "30"], ["Bob", "25"]]).rows,
        2 ≤ row.length ∧ ∀ cell ∈ row, jsTrim cell ≠ "") :=
  ⟨by decide,
    C8_table_invariant "Name    Age\nAlice    30\nBob    25\nnormal prose line"
      (Table.mk [["Name", "Age"], ["Alice", "30"], ["Bob", "25"]]) (by decide)⟩

/-- C9 confirmed: every slide produced by `createPptxFromText` contains at
most 14 text blocks: the cursor starts at 0.5 in (5), advances 0.5 in (5)
per paragraph, and a new slide starts as soon as the cursor exceeds
7 in (70), so no slide receives a 15th block. -/
theorem C9_at_most_14_blocks (text : String) :
    ∀ s ∈ createPptxFromText text, s.blocks.length ≤ 14 := by
  intro s hs
  by_cases h0 : (paragraphsOf text).length = 0
  · have hps : paragraphsOf text = [] := List.length_eq_zero.mp h0
    rw [createPptx_empty text hps] at hs
    rcases List.mem_cons.mp hs with rfl | hs
    · simp
    · rcases List.mem_singleton.mp hs with rfl
      simp
  · exact (mem_createPptx_good text h0 s hs).2.1

/-- C9 witness at the one-paragraph input `"One"`. -/
theorem C9_witness :
    Slide.mk [mkBlock "One" 5] ∈ createPptxFromText "One" ∧
    (Slide.mk [mkBlock "One" 5]).blocks.length ≤ 14 :=
  ⟨by decide, C9_at_most_14_blocks "One" (Slide.mk [mkBlock "One" 5]) (by decide)⟩

/-- C10 confirmed: in the DOCX route, if the extracted text is empty or
whitespace-only, the handler returns the structured 500 error response and
produces no document. -/
theorem C10_empty_text_500 (text : String) (h : jsTrim text = "") :
    postDocxAfterExtract text =
      DocxResponse.jsonError 500
        "Could not extract text from PDF. The file might be image-based or corrupted." := by
  have hlen : (jsTrim text).length = 0 := by rw [h]; rfl
  simp [postDocxAfterExtract, hlen]

/-- C10 witness at the whitespace-only input `" \n "`. -/
theorem C10_witness :
    jsTrim " \n " = "" ∧
    postDocxAfterExtract " \n " =
      DocxResponse.jsonError 500
        "Could not extract text from PDF. The file might be image-based or corrupted." :=
  ⟨by decide, C10_empty_text_500 " \n " (by decide)⟩

end ConvertRoute
